import Mathlib

/-!
Shallow embedding of `src/youtube.py`, a Telegram bot that searches YouTube
by text query, offers up to five results as inline buttons, and on a button
click downloads the highest-bitrate audio-only stream of the re-looked-up
video and sends it back, cleaning up a temporary file on every exit path.

External collaborators (pytube, telebot, the filesystem, the JSON codec)
are modelled explicitly; the orchestrator functions
(`download_audio_and_send`, `handle_text_message`, `handle_callback_query`,
and the module-level startup check) are translated line by line from the
source.  Observable behaviour is captured as a trace of `Action`s.
-/

namespace YoutubeBot

/-! ### User-visible message texts, verbatim from `src/youtube.py` -/

def gettingAudioText : String := "Getting audio for your selected song..."

def noAudioText : String := "Sorry, no audio streams found for this video."

def unexpectedText : String :=
  "An unexpected error occurred while processing your request. The developer has been notified."

/-- Line 69: `f"Sorry, a YouTube-related error occurred while processing your request: {e}"`,
with the formatted exception text `e` passed in. -/
def ytErrorText (e : String) : String :=
  "Sorry, a YouTube-related error occurred while processing your request: " ++ e

def searchingText : String := "Searching for your song on YouTube..."

def noResultsText : String := "Sorry, I couldn't find any results for that query."

def chooseText : String := "Please choose a song:"

def searchErrText : String := "An error occurred during the search. Please try again."

def downloadingText : String := "Downloading..."

def invalidDataText : String := "Error: Invalid button data."

def cbUnexpectedText : String := "An unexpected error occurred."

/-! ### Data model of the external video library (pytube) -/

/-- A pytube stream descriptor, reduced to the fields the program reads:
whether it is an audio-only stream (the `only_audio=True` filter), its
`bitrate`, and an identifying tag (`itag`) so that distinct descriptors with
equal bitrates can be told apart. -/
structure StreamDesc where
  onlyAudio : Bool
  bitrate : Nat
  itag : Nat
deriving DecidableEq, Repr

/-- A pytube video record: `title`, `watch_url`, and its stream descriptors. -/
structure Video where
  title : String
  watch_url : String
  streams : List StreamDesc
deriving DecidableEq, Repr

/-- Comparison on stream descriptors by bitrate, the key used by
`order_by('bitrate')`. -/
def brLE (a b : StreamDesc) : Prop := a.bitrate ≤ b.bitrate

instance : DecidableRel brLE := fun a b =>
  (Nat.decLe a.bitrate b.bitrate : Decidable (a.bitrate ≤ b.bitrate))

instance : IsTotal StreamDesc brLE := ⟨fun a b => Nat.le_total a.bitrate b.bitrate⟩

instance : IsTrans StreamDesc brLE := ⟨fun _ _ _ h1 h2 => Nat.le_trans h1 h2⟩

namespace Pytube

/-- Model of `StreamQuery.filter(only_audio=True)`: keep the audio-only
descriptors, in order. -/
def filterOnlyAudio (ss : List StreamDesc) : List StreamDesc :=
  ss.filter (fun s => s.onlyAudio)

/-- Model of `StreamQuery.order_by('bitrate')`: pytube calls the Python
built-in `sorted` with the attribute as key, which is a STABLE ascending
sort; `List.insertionSort` is stable and ascending, so it is a faithful
model. -/
def order_by_bitrate (ss : List StreamDesc) : List StreamDesc :=
  List.insertionSort brLE ss

/-- Model of `StreamQuery.desc()`: pytube reverses the underlying list
(`fmt_streams[::-1]`). -/
def descStreams (ss : List StreamDesc) : List StreamDesc := ss.reverse

/-- Model of `StreamQuery.first()`: the head of the underlying list, `None`
when empty. -/
def firstStream (ss : List StreamDesc) : Option StreamDesc := ss.head?

end Pytube

/-- Line 45 of the source:
`video.streams.filter(only_audio=True).order_by('bitrate').desc().first()`. -/
def choose_audio_stream (ss : List StreamDesc) : Option StreamDesc :=
  Pytube.firstStream (Pytube.descStreams (Pytube.order_by_bitrate (Pytube.filterOnlyAudio ss)))

/-! ### Characterisation of the chosen stream -/

/-- One step of the last-maximum computation: prefer `s` (the earlier
element) only when it is STRICTLY larger than the best of the rest. -/
def maxStep (s : StreamDesc) : Option StreamDesc → StreamDesc
  | none => s
  | some t => if t.bitrate < s.bitrate then s else t

/-- The maximum-bitrate element of a list, resolving ties to the LAST
occurrence in list order. -/
def lastMaxBy : List StreamDesc → Option StreamDesc
  | [] => none
  | s :: ts => some (maxStep s (lastMaxBy ts))

/-! ### JSON payloads of inline buttons -/

/-- A JSON leaf value occurring in a callback payload.  The handler never
inspects the structure of a field value, so non-string non-integer values
are abstracted by a tag. -/
inductive PyVal
  | str (s : String)
  | num (n : Int)
  | otherVal (tag : Nat)
deriving DecidableEq, Repr

/-- A parsed JSON document, as classified by `json.loads`: either a JSON
object (a finite map of string keys to values) or anything else (subscripting
a non-dict with a string key raises `TypeError` in Python). -/
inductive PyJson
  | obj (fields : List (String × PyVal))
  | nonObj (tag : Nat)
deriving DecidableEq, Repr

/-- Model of `data[k]` on a parsed JSON document: `some` the value when
`data` is an object containing key `k` (with the last duplicate binding
winning, as in `json.loads`), `none` when the subscript raises
(`KeyError` on a missing key, `TypeError` on a non-dict). -/
def pyGetItem (j : PyJson) (k : String) : Option PyVal :=
  match j with
  | .obj fields => (fields.reverse.find? (fun p => p.1 == k)).map (fun p => p.2)
  | .nonObj _ => none

/-- One inline keyboard button: its label and the two fields serialised into
`callback_data` by `json.dumps` on line 114. -/
structure Button where
  label : String
  cb_url : String
  cb_message_id : Nat
deriving DecidableEq, Repr

/-! ### Observable actions -/

/-- One observable step of the orchestrator: a call into the chat transport
(telebot), the video library (pytube), or the filesystem.  Temp-file paths
and message/chat/call identifiers are modelled as naturals. -/
inductive Action
  | send_chat_action (chat_id : Nat) (action : String)
  | send_message (chat_id : Nat) (text : String) (message_id : Nat)
  | edit_message_text (text : String) (chat_id : Nat) (message_id : Nat)
  | edit_message_keyboard (text : String) (chat_id : Nat) (message_id : Nat)
      (buttons : List Button)
  | send_audio (chat_id : Nat) (filepath : Nat)
  | delete_message (chat_id : Nat) (message_id : Nat)
  | answer_callback_query (call_id : Nat) (text : String)
  | start_thread (chat_id : Nat) (video_url : PyVal) (message_id : PyVal)
  | search_invoked (query : String)
  | download_invoked (itag : Nat) (filepath : Nat)
  | create_temp_file (filepath : Nat)
  | remove_file (filepath : Nat)
deriving DecidableEq, Repr

/-! ### The environment: behaviour of the external collaborators -/

/-- Which `except` clause of `download_audio_and_send` an exception reaches:
`pytube` for `(PytubeError, VideoUnavailable)`, `otherErr` for everything
else (including `IndexError`). -/
inductive ErrClass
  | pytube
  | otherErr
deriving DecidableEq, Repr

/-- The behaviour of the external world during one request: what
`Search(q).results` returns, which of the three fallible collaborator calls
raise (and with which class), the path `tempfile.NamedTemporaryFile` picks,
the message id the transport assigns to a newly sent message, and the
rendered text of a raised exception.  Transport notification calls
(`send_chat_action`, `edit_message_text`, `answer_callback_query`,
`delete_message`) are modelled as always succeeding. -/
structure Env where
  searchResults : String → List Video
  searchErr : Option ErrClass
  downloadErr : Option ErrClass
  sendErr : Option ErrClass
  tempPath : Nat
  newMessageId : Nat
  errStr : String

/-- The `except` handlers of lines 66 to 74: both edit the original message
(`chat_id, message_id`), with class-specific text. -/
def exceptAction (env : Env) (c : ErrClass) (chat_id message_id : Nat) : Action :=
  match c with
  | .pytube => .edit_message_text (ytErrorText env.errStr) chat_id message_id
  | .otherErr => .edit_message_text unexpectedText chat_id message_id

/-- Result of the `try`/`except` part of `download_audio_and_send`: the
actions performed, the value of the `temp_filepath` variable, and whether
the temp file is on disk when the `finally` block runs. -/
structure DlTryOut where
  actions : List Action
  temp_filepath : Option Nat
  onDisk : Bool
deriving Repr

/-- Lines 35 to 74 of `download_audio_and_send`, the `try`/`except` part.
`processing_message.message_id` equals `message_id` because line 38 edits
that very message, so every edit targets `message_id`.  An empty re-lookup
makes `Search(video_url).results[0]` raise `IndexError`, which lands in the
catch-all `except Exception` clause. -/
def dlTryExcept (env : Env) (chat_id : Nat) (video_url : String) (message_id : Nat) :
    DlTryOut :=
  let pre : List Action :=
    [.send_chat_action chat_id "typing",
     .edit_message_text gettingAudioText chat_id message_id,
     .search_invoked video_url]
  match env.searchErr with
  | some c => ⟨pre ++ [exceptAction env c chat_id message_id], none, false⟩
  | none =>
    match env.searchResults video_url with
    | [] =>
      ⟨pre ++ [exceptAction env .otherErr chat_id message_id], none, false⟩
    | video :: _ =>
      match choose_audio_stream video.streams with
      | none =>
        ⟨pre ++ [.edit_message_text noAudioText chat_id message_id], none, false⟩
      | some audio_stream =>
        let mk := pre ++ [.create_temp_file env.tempPath]
        match env.downloadErr with
        | some c =>
          ⟨mk ++ [exceptAction env c chat_id message_id], some env.tempPath, true⟩
        | none =>
          let dl := mk ++ [.download_invoked audio_stream.itag env.tempPath]
          match env.sendErr with
          | some c =>
            ⟨dl ++ [exceptAction env c chat_id message_id], some env.tempPath, true⟩
          | none =>
            ⟨dl ++ [.send_audio chat_id env.tempPath,
                    .delete_message chat_id message_id],
             some env.tempPath, true⟩

/-- Lines 76 to 80, the `finally` block:
`if temp_filepath and os.path.exists(temp_filepath): os.remove(temp_filepath)`. -/
def dlFinally (temp_filepath : Option Nat) (onDisk : Bool) : List Action × Bool :=
  match temp_filepath, onDisk with
  | some p, true => ([.remove_file p], false)
  | _, _ => ([], onDisk)

/-- Outcome of one run of `download_audio_and_send`: the full action trace
and whether the temporary file is still on disk afterwards. -/
structure RunResult where
  actions : List Action
  fileOnDisk : Bool
deriving Repr

/-- Lines 28 to 80: the whole download pipeline, `try`/`except` then
`finally`. -/
def download_audio_and_send (env : Env) (chat_id : Nat) (video_url : String)
    (message_id : Nat) : RunResult :=
  let t := dlTryExcept env chat_id video_url message_id
  let fin := dlFinally t.temp_filepath t.onDisk
  ⟨t.actions ++ fin.1, fin.2⟩

/-! ### The text-message handler -/

/-- Model of Python `str.strip()`: drop whitespace from both ends. -/
def pyStrip (s : String) : String :=
  ⟨((s.data.dropWhile Char.isWhitespace).reverse.dropWhile Char.isWhitespace).reverse⟩

/-- Lines 110 to 115: one button per candidate among the first five search
results, labelled with the title and carrying
`json.dumps({'url': video.watch_url, 'message_id': processing_message.message_id})`. -/
def mkButtons (results : List Video) (message_id : Nat) : List Button :=
  (results.take 5).map (fun v => ⟨"🎧 " ++ v.title, v.watch_url, message_id⟩)

/-- Lines 95 to 121, `handle_text_message`: ignore a blank message; otherwise
send a progress message, search, and either report no results, report a
search error, or present the button list by editing the progress message. -/
def handle_text_message (env : Env) (chat_id : Nat) (text : String) : List Action :=
  let query := pyStrip text
  if query.length > 0 then
    let pre : List Action :=
      [.send_chat_action chat_id "typing",
       .send_message chat_id searchingText env.newMessageId,
       .search_invoked query]
    match env.searchErr with
    | some _ =>
      pre ++ [.edit_message_text searchErrText chat_id env.newMessageId]
    | none =>
      match env.searchResults query with
      | [] =>
        pre ++ [.edit_message_text noResultsText chat_id env.newMessageId]
      | video :: rest =>
        pre ++ [.edit_message_keyboard chooseText chat_id env.newMessageId
                  (mkButtons (video :: rest) env.newMessageId)]
  else []

/-! ### The callback-query handler -/

/-- Lines 125 to 144, `handle_callback_query`, over the outcome of
`json.loads(call.data)` (`none` models a raised `json.JSONDecodeError`).
`data['url']` is evaluated before `data['message_id']`; a failure of either
subscript is a `KeyError` or `TypeError`, handled by the generic
`except Exception` clause.  Only when both fields are present does the
handler acknowledge with "Downloading..." and start the download thread. -/
def handle_callback_query (call_id chat_id : Nat) (parsed : Option PyJson) :
    List Action :=
  match parsed with
  | none => [.answer_callback_query call_id invalidDataText]
  | some data =>
    match pyGetItem data "url" with
    | none => [.answer_callback_query call_id cbUnexpectedText]
    | some video_url =>
      match pyGetItem data "message_id" with
      | none => [.answer_callback_query call_id cbUnexpectedText]
      | some message_id =>
        [.answer_callback_query call_id downloadingText,
         .start_thread chat_id video_url message_id]

/-! ### Startup -/

/-- Outcome of the module-level startup code. -/
inductive StartupResult
  | started (token : String)
  | raisedValueError
deriving DecidableEq, Repr

/-- Lines 19 to 24: `BOT_TOKEN = os.environ.get('BOT_TOKEN')`, then
`if not BOT_TOKEN: raise ValueError(...)`, then `bot = telebot.TeleBot(BOT_TOKEN)`.
`os.environ.get` yields `None` when the variable is absent; Python
truthiness makes both `None` and the empty string falsy. -/
def startup (envBotToken : Option String) : StartupResult :=
  match envBotToken with
  | none => .raisedValueError
  | some s => if s = "" then .raisedValueError else .started s

/-! ### Trace predicates -/

def isSendAudio : Action → Bool
  | .send_audio _ _ => true
  | _ => false

def isStartThread : Action → Bool
  | .start_thread _ _ _ => true
  | _ => false

def isDownloadInvoked : Action → Bool
  | .download_invoked _ _ => true
  | _ => false

def isKeyboardEdit : Action → Bool
  | .edit_message_keyboard _ _ _ _ => true
  | _ => false

def isEditWith (t : String) : Action → Bool
  | .edit_message_text t2 _ _ => t2 == t
  | _ => false

/-! ### Concrete sample environments, used by witnesses and counterexamples -/

/-- A sample audio-only stream descriptor. -/
def demoStream : StreamDesc := ⟨true, 128, 140⟩

/-- A sample video with one audio-only stream. -/
def demoVideo : Video := ⟨"Song", "https://youtu.be/abc", [demoStream]⟩

/-- A fault-free environment whose lookup always returns `demoVideo`. -/
def demoEnv : Env := ⟨fun _ => [demoVideo], none, none, none, 42, 10, ""⟩

/-- A fault-free environment whose lookup always returns no results. -/
def emptySearchEnv : Env := ⟨fun _ => [], none, none, none, 0, 0, ""⟩

/-- A sample video with no audio-only stream. -/
def noAudioVideo : Video := ⟨"Silent", "https://youtu.be/sil", [⟨false, 500, 22⟩]⟩

/-- A fault-free environment whose lookup returns only `noAudioVideo`. -/
def noAudioEnv : Env := ⟨fun _ => [noAudioVideo], none, none, none, 0, 9, ""⟩

/-! ### Helper lemmas: the chosen stream is the last maximum -/

lemma orderedInsert_ne_nil (s : StreamDesc) (l : List StreamDesc) :
    l.orderedInsert brLE s ≠ [] := by
  cases l with
  | nil => simp
  | cons b t =>
    simp only [List.orderedInsert]
    split <;> simp

lemma sorted_rel_getLast {b : StreamDesc} {l : List StreamDesc}
    (h : (b :: l).Sorted brLE) {t : StreamDesc} (ht : (b :: l).getLast? = some t) :
    b.bitrate ≤ t.bitrate := by
  have hmem : t ∈ b :: l := List.mem_of_getLast?_eq_some ht
  rcases List.mem_cons.mp hmem with rfl | hmem2
  · exact Nat.le_refl _
  · exact (List.sorted_cons.mp h).1 t hmem2

lemma getLast?_orderedInsert (s : StreamDesc) (l : List StreamDesc) (h : l.Sorted brLE) :
    (l.orderedInsert brLE s).getLast? = some (maxStep s l.getLast?) := by
  induction l with
  | nil => rfl
  | cons b l ih =>
    by_cases hle : brLE s b
    · rw [List.orderedInsert, if_pos hle]
      have hsome : (b :: l).getLast?.isSome := by
        rw [List.getLast?_isSome]
        exact List.cons_ne_nil b l
      obtain ⟨t, ht⟩ := Option.isSome_iff_exists.mp hsome
      have hbt : b.bitrate ≤ t.bitrate := sorted_rel_getLast h ht
      have hst : ¬ t.bitrate < s.bitrate := by
        have hsb : s.bitrate ≤ b.bitrate := hle
        omega
      rw [ht, maxStep, if_neg hst, List.getLast?_cons_cons, ht]
    · rw [List.orderedInsert, if_neg hle]
      have hbs : b.bitrate < s.bitrate := by
        have : ¬ s.bitrate ≤ b.bitrate := hle
        omega
      have hrec := ih (List.sorted_cons.mp h).2
      obtain ⟨y, ys, hys⟩ : ∃ y ys, l.orderedInsert brLE s = y :: ys := by
        cases hx : l.orderedInsert brLE s with
        | nil => exact absurd hx (orderedInsert_ne_nil s l)
        | cons y ys => exact ⟨y, ys, rfl⟩
      cases l with
      | nil =>
        simp only [List.orderedInsert_nil] at *
        rw [List.getLast?_cons_cons]
        simp [maxStep, hbs]
      | cons c l2 =>
        rw [hys, List.getLast?_cons_cons, ← hys, hrec, List.getLast?_cons_cons]

lemma getLast?_insertionSort (l : List StreamDesc) :
    (List.insertionSort brLE l).getLast? = lastMaxBy l := by
  induction l with
  | nil => rfl
  | cons s ts ih =>
    rw [List.insertionSort,
      getLast?_orderedInsert s _ (List.sorted_insertionSort brLE ts), ih, lastMaxBy]

lemma choose_eq_lastMaxBy (ss : List StreamDesc) :
    choose_audio_stream ss = lastMaxBy (Pytube.filterOnlyAudio ss) := by
  unfold choose_audio_stream Pytube.firstStream Pytube.descStreams Pytube.order_by_bitrate
  rw [List.head?_reverse]
  exact getLast?_insertionSort _

lemma lastMaxBy_spec (l : List StreamDesc) (h : l ≠ []) :
    ∃ pre s post, lastMaxBy l = some s ∧ l = pre ++ s :: post ∧
      (∀ t ∈ l, t.bitrate ≤ s.bitrate) ∧ (∀ t ∈ post, t.bitrate < s.bitrate) := by
  induction l with
  | nil => exact absurd rfl h
  | cons a ts ih =>
    cases hts : ts with
    | nil =>
      refine ⟨[], a, [], ?_, by simp, ?_, by simp⟩
      · subst hts; rfl
      · subst hts; intro t ht; simp at ht; subst ht; exact Nat.le_refl _
    | cons b ts2 =>
      subst hts
      obtain ⟨pre, s, post, h1, h2, h3, h4⟩ := ih (List.cons_ne_nil b ts2)
      by_cases hlt : s.bitrate < a.bitrate
      · refine ⟨[], a, b :: ts2, ?_, by simp, ?_, ?_⟩
        · rw [lastMaxBy, h1, maxStep, if_pos hlt]
        · intro t ht
          rcases List.mem_cons.mp ht with rfl | ht2
          · exact Nat.le_refl _
          · exact Nat.le_trans (h3 t ht2) (Nat.le_of_lt hlt)
        · intro t ht
          exact Nat.lt_of_le_of_lt (h3 t ht) hlt
      · refine ⟨a :: pre, s, post, ?_, ?_, ?_, h4⟩
        · rw [lastMaxBy, h1, maxStep, if_neg hlt]
        · rw [List.cons_append, h2]
        · intro t ht
          rcases List.mem_cons.mp ht with rfl | ht2
          · omega
          · exact h3 t ht2

lemma choose_audio_stream_isSome (ss : List StreamDesc)
    (h : Pytube.filterOnlyAudio ss ≠ []) :
    ∃ s, choose_audio_stream ss = some s := by
  obtain ⟨pre, s, post, h1, _, _, _⟩ := lastMaxBy_spec _ h
  exact ⟨s, (choose_eq_lastMaxBy ss).trans h1⟩

lemma choose_audio_stream_eq_none (ss : List StreamDesc)
    (h : Pytube.filterOnlyAudio ss = []) :
    choose_audio_stream ss = none := by
  rw [choose_eq_lastMaxBy, h]
  rfl

/-! ### Claim theorems -/

/-- C2: on every execution of `download_audio_and_send` — success, library
error, unexpected error, empty re-lookup, or missing audio stream — the
temporary file is gone when the task ends, the file is removed exactly when
one was created, and when none was created the cleanup performs no removal
at all. -/
theorem C2_cleanup_on_every_path (env : Env) (chat_id : Nat) (video_url : String)
    (message_id : Nat) :
    (download_audio_and_send env chat_id video_url message_id).fileOnDisk = false ∧
    (Action.create_temp_file env.tempPath ∈
        (download_audio_and_send env chat_id video_url message_id).actions ↔
      Action.remove_file env.tempPath ∈
        (download_audio_and_send env chat_id video_url message_id).actions) := by
  cases hse : env.searchErr with
  | some c =>
    cases c <;>
      simp [download_audio_and_send, dlTryExcept, dlFinally, exceptAction, hse]
  | none =>
    cases hr : env.searchResults video_url with
    | nil =>
      simp [download_audio_and_send, dlTryExcept, dlFinally, exceptAction, hse, hr]
    | cons v rest =>
      cases hc : choose_audio_stream v.streams with
      | none =>
        simp [download_audio_and_send, dlTryExcept, dlFinally, hse, hr, hc]
      | some s =>
        cases hd : env.downloadErr with
        | some c =>
          cases c <;>
            simp [download_audio_and_send, dlTryExcept, dlFinally, exceptAction,
              hse, hr, hc, hd]
        | none =>
          cases hsend : env.sendErr with
          | some c =>
            cases c <;>
              simp [download_audio_and_send, dlTryExcept, dlFinally, exceptAction,
                hse, hr, hc, hd, hsend]
          | none =>
            simp [download_audio_and_send, dlTryExcept, dlFinally,
              hse, hr, hc, hd, hsend]

/-- C3 as stated is false: with two audio-only descriptors tied at the
maximum bitrate, the chosen descriptor is the second (last) one in list
order, not the first encountered maximum. -/
theorem C3_counterexample_tie_picks_last :
    choose_audio_stream [⟨true, 128, 0⟩, ⟨true, 128, 1⟩] = some ⟨true, 128, 1⟩ ∧
    (⟨true, 128, 1⟩ : StreamDesc) ≠ ⟨true, 128, 0⟩ := by decide

/-- C3 amended: for every stream list with at least one audio-only
descriptor, the chosen descriptor attains the maximum bitrate among the
audio-only descriptors, and when several tie at the maximum the LAST one in
original list order is chosen (pytube sorts ascending with a stable sort and
then reverses, so the first element after `desc()` is the last tied
maximum). -/
theorem C3_amended_max_bitrate_last_tie (ss : List StreamDesc)
    (h : Pytube.filterOnlyAudio ss ≠ []) :
    ∃ pre s post, choose_audio_stream ss = some s ∧
      Pytube.filterOnlyAudio ss = pre ++ s :: post ∧
      (∀ t ∈ Pytube.filterOnlyAudio ss, t.bitrate ≤ s.bitrate) ∧
      (∀ t ∈ post, t.bitrate < s.bitrate) := by
  obtain ⟨pre, s, post, h1, h2, h3, h4⟩ := lastMaxBy_spec _ h
  exact ⟨pre, s, post, (choose_eq_lastMaxBy ss).trans h1, h2, h3, h4⟩

/-- Witness for C3 at a concrete two-element stream list. -/
theorem C3_amended_witness :
    Pytube.filterOnlyAudio [⟨true, 100, 0⟩, ⟨true, 200, 1⟩] ≠ [] ∧
    (∃ pre s post,
      choose_audio_stream [⟨true, 100, 0⟩, ⟨true, 200, 1⟩] = some s ∧
      Pytube.filterOnlyAudio [⟨true, 100, 0⟩, ⟨true, 200, 1⟩] = pre ++ s :: post ∧
      (∀ t ∈ Pytube.filterOnlyAudio [⟨true, 100, 0⟩, ⟨true, 200, 1⟩],
        t.bitrate ≤ s.bitrate) ∧
      (∀ t ∈ post, t.bitrate < s.bitrate)) :=
  ⟨by decide, C3_amended_max_bitrate_last_tie _ (by decide)⟩

/-- C9 as stated is false: a BOT_TOKEN that is present but empty still makes
startup raise, because `if not BOT_TOKEN` tests Python truthiness, not
presence. -/
theorem C9_counterexample_empty_token :
    startup (some "") = .raisedValueError ∧ (some "" : Option String) ≠ none := by
  exact ⟨rfl, by decide⟩

/-- C9 amended: startup raises `ValueError` before constructing the
transport client when BOT_TOKEN is absent OR present but empty, and proceeds
with the token whenever it is present and non-empty. -/
theorem C9_amended_token_check :
    startup none = .raisedValueError ∧
    startup (some "") = .raisedValueError ∧
    ∀ s : String, s ≠ "" → startup (some s) = .started s := by
  refine ⟨rfl, rfl, ?_⟩
  intro s hs
  simp [startup, hs]

/-- Witness for C9 at a concrete non-empty token. -/
theorem C9_amended_witness : startup (some "token") = .started "token" :=
  C9_amended_token_check.2.2 "token" (by decide)

/-- C10: an inbound text message that strips to the empty string produces no
action at all — no message, no lookup, no download. -/
theorem C10_blank_message_ignored (env : Env) (chat_id : Nat) (text : String)
    (h : pyStrip text = "") :
    handle_text_message env chat_id text = [] := by
  simp [handle_text_message, h]

/-- Witness for C10 at a concrete whitespace-only message. -/
theorem C10_witness : handle_text_message emptySearchEnv 3 " " = [] :=
  C10_blank_message_ignored emptySearchEnv 3 " " (by decide)

/-- C4: a button-click payload that is not valid JSON, or whose JSON lacks
the `url` field or the `message_id` field, is acknowledged with a rejection
text (never the "Downloading..." acknowledgment) and never starts a download
thread. -/
theorem C4_malformed_payload_rejected (call_id chat_id : Nat) (parsed : Option PyJson)
    (h : parsed = none ∨ ∃ d, parsed = some d ∧
        (pyGetItem d "url" = none ∨ pyGetItem d "message_id" = none)) :
    (∃ t, handle_callback_query call_id chat_id parsed =
        [.answer_callback_query call_id t] ∧ t ≠ downloadingText) ∧
    (handle_callback_query call_id chat_id parsed).countP isStartThread = 0 := by
  rcases h with rfl | ⟨d, rfl, h2⟩
  · exact ⟨⟨invalidDataText, rfl, by decide⟩, rfl⟩
  · cases hcu : pyGetItem d "url" with
    | none =>
      refine ⟨⟨cbUnexpectedText, ?_, by decide⟩, ?_⟩ <;>
        simp [handle_callback_query, hcu, isStartThread]
    | some u =>
      have hm : pyGetItem d "message_id" = none := by
        rcases h2 with hu | hm
        · rw [hcu] at hu; cases hu
        · exact hm
      refine ⟨⟨cbUnexpectedText, ?_, by decide⟩, ?_⟩ <;>
        simp [handle_callback_query, hcu, hm, isStartThread]

/-- Witness for C4 at a concrete payload that is a JSON object with neither
expected field. -/
theorem C4_witness :
    ((some (PyJson.obj []) : Option PyJson) = none ∨
      ∃ d, (some (PyJson.obj []) : Option PyJson) = some d ∧
        (pyGetItem d "url" = none ∨ pyGetItem d "message_id" = none)) ∧
    ((∃ t, handle_callback_query 5 6 (some (PyJson.obj [])) =
        [.answer_callback_query 5 t] ∧ t ≠ downloadingText) ∧
      (handle_callback_query 5 6 (some (PyJson.obj []))).countP isStartThread = 0) :=
  ⟨Or.inr ⟨PyJson.obj [], rfl, Or.inl rfl⟩,
    C4_malformed_payload_rejected 5 6 (some (PyJson.obj []))
      (Or.inr ⟨PyJson.obj [], rfl, Or.inl rfl⟩)⟩

/-- Equation for the fault-free success path of the pipeline. -/
lemma download_success_eq (env : Env) (chat_id : Nat) (video_url : String)
    (message_id : Nat) (video : Video) (rest : List Video) (s : StreamDesc)
    (hs : env.searchErr = none)
    (hr : env.searchResults video_url = video :: rest)
    (hc : choose_audio_stream video.streams = some s)
    (hd : env.downloadErr = none)
    (hsend : env.sendErr = none) :
    download_audio_and_send env chat_id video_url message_id =
      ⟨[.send_chat_action chat_id "typing",
        .edit_message_text gettingAudioText chat_id message_id,
        .search_invoked video_url,
        .create_temp_file env.tempPath,
        .download_invoked s.itag env.tempPath,
        .send_audio chat_id env.tempPath,
        .delete_message chat_id message_id,
        .remove_file env.tempPath], false⟩ := by
  simp [download_audio_and_send, dlTryExcept, dlFinally, hs, hr, hc, hd, hsend]

/-- C1: for every selection whose re-lookup yields at least one candidate
whose first result has at least one audio-only stream, on a fault-free run
of the collaborators the pipeline sends exactly one audio attachment to the
chat and the temporary file no longer exists when the task ends. -/
theorem C1_success_sends_one_audio_and_cleans_up (env : Env) (chat_id : Nat)
    (video_url : String) (message_id : Nat) (video : Video) (rest : List Video)
    (hs : env.searchErr = none)
    (hr : env.searchResults video_url = video :: rest)
    (ha : ∃ d ∈ video.streams, d.onlyAudio = true)
    (hd : env.downloadErr = none)
    (hsend : env.sendErr = none) :
    (download_audio_and_send env chat_id video_url message_id).actions.countP
        isSendAudio = 1 ∧
    Action.send_audio chat_id env.tempPath ∈
      (download_audio_and_send env chat_id video_url message_id).actions ∧
    (download_audio_and_send env chat_id video_url message_id).fileOnDisk = false := by
  obtain ⟨d, hdm, hda⟩ := ha
  have hne : Pytube.filterOnlyAudio video.streams ≠ [] := by
    unfold Pytube.filterOnlyAudio
    exact List.ne_nil_of_mem (List.mem_filter.mpr ⟨hdm, hda⟩)
  obtain ⟨s, hc⟩ := choose_audio_stream_isSome _ hne
  rw [download_success_eq env chat_id video_url message_id video rest s hs hr hc hd hsend]
  refine ⟨?_, ?_, rfl⟩
  · simp [List.countP_cons, isSendAudio]
  · simp

/-- Witness for C1 at a concrete fault-free environment. -/
theorem C1_witness :
    (download_audio_and_send demoEnv 7 "q" 10).actions.countP isSendAudio = 1 ∧
    Action.send_audio 7 42 ∈ (download_audio_and_send demoEnv 7 "q" 10).actions ∧
    (download_audio_and_send demoEnv 7 "q" 10).fileOnDisk = false :=
  C1_success_sends_one_audio_and_cleans_up demoEnv 7 "q" 10 demoVideo [] rfl rfl
    ⟨demoStream, by decide, rfl⟩ rfl rfl

/-- Equation for the empty-re-lookup path of the pipeline: `results[0]`
raises `IndexError`, which is handled by the catch-all clause. -/
lemma download_no_results_eq (env : Env) (chat_id : Nat) (video_url : String)
    (message_id : Nat)
    (hs : env.searchErr = none)
    (hr : env.searchResults video_url = []) :
    download_audio_and_send env chat_id video_url message_id =
      ⟨[.send_chat_action chat_id "typing",
        .edit_message_text gettingAudioText chat_id message_id,
        .search_invoked video_url,
        .edit_message_text unexpectedText chat_id message_id], false⟩ := by
  simp [download_audio_and_send, dlTryExcept, dlFinally, exceptAction, hs, hr]

/-- C7 as stated is false: when re-lookup by "bad" yields no results, the
pipeline edits the original message with the generic unexpected-error text,
not with the "no results" failure text (the empty `results` list makes
`results[0]` raise `IndexError`, which the catch-all handler reports). -/
theorem C7_counterexample_generic_error_text :
    Action.edit_message_text noResultsText 1 1 ∉
      (download_audio_and_send emptySearchEnv 1 "bad" 1).actions ∧
    Action.edit_message_text unexpectedText 1 1 ∈
      (download_audio_and_send emptySearchEnv 1 "bad" 1).actions := by decide

/-- C7 amended: for a button click whose payload re-lookup yields no
results, the pipeline edits the original message to show the generic
unexpected-error failure text, and no edit ever carries the "no results"
text. -/
theorem C7_amended_unexpected_error_edit (env : Env) (chat_id : Nat)
    (video_url : String) (message_id : Nat)
    (hs : env.searchErr = none)
    (hr : env.searchResults video_url = []) :
    Action.edit_message_text unexpectedText chat_id message_id ∈
      (download_audio_and_send env chat_id video_url message_id).actions ∧
    (download_audio_and_send env chat_id video_url message_id).actions.countP
        (isEditWith noResultsText) = 0 ∧
    (download_audio_and_send env chat_id video_url message_id).actions.countP
        isSendAudio = 0 := by
  rw [download_no_results_eq env chat_id video_url message_id hs hr]
  refine ⟨by simp, ?_, ?_⟩ <;>
    simp [List.countP_cons, isEditWith, isSendAudio,
      show (gettingAudioText == noResultsText) = false by decide,
      show (unexpectedText == noResultsText) = false by decide]

/-- Witness for C7 at a concrete environment whose lookup of "bad" is
empty. -/
theorem C7_amended_witness :
    Action.edit_message_text unexpectedText 2 1 ∈
      (download_audio_and_send emptySearchEnv 2 "bad" 1).actions ∧
    (download_audio_and_send emptySearchEnv 2 "bad" 1).actions.countP
        (isEditWith noResultsText) = 0 ∧
    (download_audio_and_send emptySearchEnv 2 "bad" 1).actions.countP
        isSendAudio = 0 :=
  C7_amended_unexpected_error_edit emptySearchEnv 2 "bad" 1 rfl rfl

/-- Equation for the no-results path of the text handler. -/
lemma handle_text_no_results_eq (env : Env) (chat_id : Nat) (text : String)
    (hq : (pyStrip text).length > 0)
    (hs : env.searchErr = none)
    (hr : env.searchResults (pyStrip text) = []) :
    handle_text_message env chat_id text =
      [.send_chat_action chat_id "typing",
       .send_message chat_id searchingText env.newMessageId,
       .search_invoked (pyStrip text),
       .edit_message_text noResultsText chat_id env.newMessageId] := by
  simp only [handle_text_message, hs, hr, if_pos hq, List.cons_append, List.nil_append]

/-- C5: for every non-blank text query whose lookup returns no results,
exactly one "no results" edit of the progress message is produced, and no
download, no audio send, and no thread start happens. -/
theorem C5_no_results_single_message (env : Env) (chat_id : Nat) (text : String)
    (hq : (pyStrip text).length > 0)
    (hs : env.searchErr = none)
    (hr : env.searchResults (pyStrip text) = []) :
    (handle_text_message env chat_id text).countP (isEditWith noResultsText) = 1 ∧
    (handle_text_message env chat_id text).countP isSendAudio = 0 ∧
    (handle_text_message env chat_id text).countP isDownloadInvoked = 0 ∧
    (handle_text_message env chat_id text).countP isStartThread = 0 := by
  rw [handle_text_no_results_eq env chat_id text hq hs hr]
  refine ⟨?_, ?_, ?_, ?_⟩ <;>
    simp [List.countP_cons, isEditWith, isSendAudio, isDownloadInvoked, isStartThread,
      show (searchingText == noResultsText) = false by decide]

/-- Witness for C5 at a concrete query with an empty lookup. -/
theorem C5_witness :
    (handle_text_message emptySearchEnv 4 "q").countP (isEditWith noResultsText) = 1 ∧
    (handle_text_message emptySearchEnv 4 "q").countP isSendAudio = 0 ∧
    (handle_text_message emptySearchEnv 4 "q").countP isDownloadInvoked = 0 ∧
    (handle_text_message emptySearchEnv 4 "q").countP isStartThread = 0 :=
  C5_no_results_single_message emptySearchEnv 4 "q" (by decide) rfl rfl

/-- Equation for the no-audio-stream path of the pipeline. -/
lemma download_no_audio_eq (env : Env) (chat_id : Nat) (video_url : String)
    (message_id : Nat) (video : Video) (rest : List Video)
    (hs : env.searchErr = none)
    (hr : env.searchResults video_url = video :: rest)
    (hc : choose_audio_stream video.streams = none) :
    download_audio_and_send env chat_id video_url message_id =
      ⟨[.send_chat_action chat_id "typing",
        .edit_message_text gettingAudioText chat_id message_id,
        .search_invoked video_url,
        .edit_message_text noAudioText chat_id message_id], false⟩ := by
  simp [download_audio_and_send, dlTryExcept, dlFinally, hs, hr, hc]

/-- C6: when the selected video has no audio-only stream descriptor, exactly
one "no audio streams" message is produced and no audio attachment send (and
no download) is attempted. -/
theorem C6_no_audio_single_message (env : Env) (chat_id : Nat)
    (video_url : String) (message_id : Nat) (video : Video) (rest : List Video)
    (hs : env.searchErr = none)
    (hr : env.searchResults video_url = video :: rest)
    (ha : ∀ d ∈ video.streams, d.onlyAudio = false) :
    (download_audio_and_send env chat_id video_url message_id).actions.countP
        (isEditWith noAudioText) = 1 ∧
    (download_audio_and_send env chat_id video_url message_id).actions.countP
        isSendAudio = 0 ∧
    (download_audio_and_send env chat_id video_url message_id).actions.countP
        isDownloadInvoked = 0 := by
  have hfil : Pytube.filterOnlyAudio video.streams = [] := by
    unfold Pytube.filterOnlyAudio
    rw [List.filter_eq_nil_iff]
    intro d hd
    simp [ha d hd]
  rw [download_no_audio_eq env chat_id video_url message_id video rest hs hr
    (choose_audio_stream_eq_none _ hfil)]
  refine ⟨?_, ?_, ?_⟩ <;>
    simp [List.countP_cons, isEditWith, isSendAudio, isDownloadInvoked,
      show (gettingAudioText == noAudioText) = false by decide]

/-- Witness for C6 at a concrete video without audio streams. -/
theorem C6_witness :
    (download_audio_and_send noAudioEnv 8 "u" 9).actions.countP
        (isEditWith noAudioText) = 1 ∧
    (download_audio_and_send noAudioEnv 8 "u" 9).actions.countP isSendAudio = 0 ∧
    (download_audio_and_send noAudioEnv 8 "u" 9).actions.countP
        isDownloadInvoked = 0 :=
  C6_no_audio_single_message noAudioEnv 8 "u" 9 noAudioVideo [] rfl rfl
    (by decide)

/-- Equation for the with-results path of the text handler. -/
lemma handle_text_results_eq (env : Env) (chat_id : Nat) (text : String)
    (video : Video) (rest : List Video)
    (hq : (pyStrip text).length > 0)
    (hs : env.searchErr = none)
    (hr : env.searchResults (pyStrip text) = video :: rest) :
    handle_text_message env chat_id text =
      [.send_chat_action chat_id "typing",
       .send_message chat_id searchingText env.newMessageId,
       .search_invoked (pyStrip text),
       .edit_message_keyboard chooseText chat_id env.newMessageId
         (mkButtons (video :: rest) env.newMessageId)] := by
  simp only [handle_text_message, hs, hr, if_pos hq, List.cons_append, List.nil_append]

/-- C8: for every non-blank text query with at least one lookup result, the
handler presents the first at-most-five candidates as a labelled button list
(editing the progress message) instead of downloading; each button is
labelled with the candidate title and its payload carries exactly that
candidate's watch URL together with the progress-message id. -/
theorem C8_presents_first_five_buttons (env : Env) (chat_id : Nat) (text : String)
    (video : Video) (rest : List Video)
    (hq : (pyStrip text).length > 0)
    (hs : env.searchErr = none)
    (hr : env.searchResults (pyStrip text) = video :: rest) :
    Action.edit_message_keyboard chooseText chat_id env.newMessageId
        (((video :: rest).take 5).map
          (fun v => Button.mk ("🎧 " ++ v.title) v.watch_url env.newMessageId)) ∈
      handle_text_message env chat_id text ∧
    (handle_text_message env chat_id text).countP isKeyboardEdit = 1 ∧
    (((video :: rest).take 5).map
        (fun v => Button.mk ("🎧 " ++ v.title) v.watch_url env.newMessageId)).length =
      min 5 (video :: rest).length ∧
    (handle_text_message env chat_id text).countP isSendAudio = 0 ∧
    (handle_text_message env chat_id text).countP isDownloadInvoked = 0 ∧
    (handle_text_message env chat_id text).countP isStartThread = 0 := by
  rw [handle_text_results_eq env chat_id text video rest hq hs hr]
  refine ⟨?_, ?_, ?_, ?_, ?_, ?_⟩
  · simp [mkButtons]
  · simp [List.countP_cons, isKeyboardEdit]
  · simp [List.length_take]
    omega
  · simp [List.countP_cons, isSendAudio]
  · simp [List.countP_cons, isDownloadInvoked]
  · simp [List.countP_cons, isStartThread]

/-- Witness for C8 at a concrete query with one result. -/
theorem C8_witness :
    Action.edit_message_keyboard chooseText 7 10
        ((([demoVideo] : List Video).take 5).map
          (fun v => Button.mk ("🎧 " ++ v.title) v.watch_url 10)) ∈
      handle_text_message demoEnv 7 "q" ∧
    (handle_text_message demoEnv 7 "q").countP isKeyboardEdit = 1 ∧
    ((([demoVideo] : List Video).take 5).map
        (fun v => Button.mk ("🎧 " ++ v.title) v.watch_url 10)).length =
      min 5 ([demoVideo] : List Video).length ∧
    (handle_text_message demoEnv 7 "q").countP isSendAudio = 0 ∧
    (handle_text_message demoEnv 7 "q").countP isDownloadInvoked = 0 ∧
    (handle_text_message demoEnv 7 "q").countP isStartThread = 0 :=
  C8_presents_first_five_buttons demoEnv 7 "q" demoVideo [] (by decide) rfl rfl

end YoutubeBot
